import Mathlib

/-!
Shallow embedding of the Depthcharge companion firmware core
(`src/firmware/Arduino/Depthcharge/`): the Panic fault latch
(`Panic.cpp`), the I2C peripheral emulation (`I2CPeriph.cpp`), the
host-link framing state machine (`Communicator.cpp`/`Communicator.h`)
and the command dispatcher (`Companion.cpp`).

Machine integers are modelled as `Nat` (all stored values fit their C
types on the paths modelled; masks and shifts are written out where the
source performs them).  Byte buffers are `List Nat`, kept at their C
array lengths by invariants carried in the theorems.  The serial port
input is a `List Nat` of currently-available bytes, consumed by
`readBytes`-style take/drop.  Hardware-only side effects (`TwoWire`
driver calls, `Stream::write`) have no modelled state.
-/

namespace Depthcharge

/-- `Panic::setReason` (Panic.cpp lines 8-15): sets the 32-bit reason
`((source & 0xff) << 16) | lineno` only when the current reason is 0. -/
def Panic.setReason (m_reason : Nat) (source : Nat) (lineno : Nat) : Nat :=
  if m_reason = 0 then ((source &&& 0xff) <<< 16) ||| lineno else m_reason

/-- `Panic::active` (Panic.cpp): the latch is active iff the reason is nonzero. -/
def Panic.active (m_reason : Nat) : Bool :=
  m_reason != 0

/-- `Panic::Source` enumerator values (Panic.h). -/
def Panic.Source.Communicator : Nat := 0x1

def Panic.Source.I2CPeriph : Nat := 0x2

/-- `I2CPeriph::BUFFER_SIZE` (I2CPeriph.h). -/
def BUFFER_SIZE : Nat := 32

/-- The static member state of `I2CPeriph` (I2CPeriph.h / I2CPeriph.cpp
footer).  The `TwoWire*` bus handle is modelled as `Option Nat` (a
pointer identity, `none` = NULL). -/
structure I2CPeriphState where
  m_i2c : Option Nat
  m_addr : Nat
  m_speed : Nat
  m_rbuf : List Nat
  m_rcount : Nat
  m_wbuf : List Nat
  m_wcount : Nat
  m_subaddr_len : Nat
deriving Repr, DecidableEq

namespace I2CPeriph

/-- `I2CPeriph::attached` (I2CPeriph.cpp): `m_i2c != NULL`. -/
def attached (s : I2CPeriphState) : Bool :=
  s.m_i2c.isSome

/-- `I2CPeriph::setAddress` (I2CPeriph.cpp): when attached, calls
`m_i2c->begin(addr)` and registers the bus callbacks — all hardware
driver effects; no member variable is written (in particular `m_addr`
is NOT updated here). -/
def setAddress (s : I2CPeriphState) (_addr : Nat) : I2CPeriphState :=
  s

/-- `I2CPeriph::setSpeed` (I2CPeriph.cpp): stores `speed` into `m_speed`
(and programs the bus clock, a hardware effect) only when nonzero. -/
def setSpeed (s : I2CPeriphState) (speed : Nat) : I2CPeriphState :=
  if speed ≠ 0 then { s with m_speed := speed } else s

/-- `I2CPeriph::attach` (I2CPeriph.cpp lines 14-41): a second attach
(bus handle already non-NULL) only records a panic reason (source
I2CPeriph, line 22) and returns; otherwise stores the bus handle and
address, zeroes both buffers and counts, then applies address and
speed.  Returns the new state and the new panic reason. -/
def attach (s : I2CPeriphState) (reason : Nat) (bus : Nat) (addr : Nat)
    (speed : Nat) : I2CPeriphState × Nat :=
  if s.m_i2c.isSome then
    (s, Panic.setReason reason Panic.Source.I2CPeriph 22)
  else
    let s := { s with
      m_i2c := some bus, m_addr := addr,
      m_rbuf := List.replicate BUFFER_SIZE 0, m_rcount := 0,
      m_wbuf := List.replicate BUFFER_SIZE 0, m_wcount := 0 }
    let s := setAddress s addr
    let s := setSpeed s speed
    (s, reason)

/-- `I2CPeriph::getAddress` (I2CPeriph.cpp). -/
def getAddress (s : I2CPeriphState) : Nat :=
  if s.m_i2c.isSome then s.m_addr else 0xff

/-- `I2CPeriph::getSpeed` (I2CPeriph.cpp). -/
def getSpeed (s : I2CPeriphState) : Nat :=
  s.m_speed

/-- `I2CPeriph::setSubAddressLength` (I2CPeriph.cpp). -/
def setSubAddressLength (s : I2CPeriphState) (len : Nat) : I2CPeriphState :=
  { s with m_subaddr_len := len }

/-- `I2CPeriph::getSubAddressLength` (I2CPeriph.cpp). -/
def getSubAddressLength (s : I2CPeriphState) : Nat :=
  s.m_subaddr_len

/-- `I2CPeriph::getWriteBuffer` (I2CPeriph.cpp lines 97-110): copies
`min m_wcount max_len` bytes of `m_wbuf` into the head of `buf` and
returns that count together with the updated destination buffer. -/
def getWriteBuffer (s : I2CPeriphState) (buf : List Nat) (max_len : Nat) :
    Nat × List Nat :=
  let ret := if max_len < s.m_wcount then max_len else s.m_wcount
  (ret, s.m_wbuf.take ret ++ buf.drop ret)

/-- `I2CPeriph::setReadBuffer` (I2CPeriph.cpp lines 113-125): truncates
`len` to `BUFFER_SIZE`, copies that many bytes of `buf` into the head
of `m_rbuf` (the tail keeps its previous contents) and records the
count in `m_rcount`. -/
def setReadBuffer (s : I2CPeriphState) (buf : List Nat) (len : Nat) :
    I2CPeriphState :=
  let len := if BUFFER_SIZE < len then BUFFER_SIZE else len
  { s with m_rbuf := buf.take len ++ s.m_rbuf.drop len, m_rcount := len }

/-- `I2CPeriph::_handle_write` (I2CPeriph.cpp lines 128-160), the bus
ISR callback for a controller write.  `stream i` is the byte the call
number `i` of `m_i2c->read()` yields during this callback.  A negative
`count` records a panic reason (line 132) and stores nothing; a count
above `BUFFER_SIZE` records a panic reason (line 146) and is clamped to
`BUFFER_SIZE`.  Then `m_subaddr_len` leading bytes are read and
discarded, and the next `count` bytes are read into `m_wbuf` with
`m_wcount` set to `count`. -/
def handle_write (s : I2CPeriphState) (reason : Nat) (count : Int)
    (stream : Nat → Nat) : I2CPeriphState × Nat :=
  if count < 0 then
    (s, Panic.setReason reason Panic.Source.I2CPeriph 132)
  else
    let (reason, count) :=
      if BUFFER_SIZE < count.toNat then
        (Panic.setReason reason Panic.Source.I2CPeriph 146, BUFFER_SIZE)
      else
        (reason, count.toNat)
    let wbuf :=
      (List.range count).map (fun i => stream (s.m_subaddr_len + i)) ++
        s.m_wbuf.drop count
    ({ s with m_wbuf := wbuf, m_wcount := count }, reason)

end I2CPeriph

/-- `Communicator::MAX_DATA_SIZE` (Communicator.h). -/
def MAX_DATA_SIZE : Nat := 64

/-- `Communicator::HEADER_SIZE` (Communicator.h): `sizeof(cmd) + sizeof(len)`. -/
def HEADER_SIZE : Nat := 2

/-- `Communicator::msg` (Communicator.h): a packed `{cmd, len, data[64]}`.
`data` always has length `MAX_DATA_SIZE`; this array-length invariant is
carried as a hypothesis where needed. -/
structure Msg where
  cmd : Nat
  len : Nat
  data : List Nat
deriving Repr, DecidableEq

/-- `Communicator::state` (Communicator.h). -/
inductive CommState
  | UNINITIALIZED
  | IDLE
  | READ_REQUEST_HEADER
  | READ_REQUEST_DATA
  | RETURN_REQUEST
  | PANIC
deriving Repr, DecidableEq

/-- The member state of a `Communicator` (Communicator.h): parse state,
in-progress request and received-byte counter.  The `Stream*` host port
is modelled separately as the list of currently-available input bytes. -/
structure Communicator where
  m_state : CommState
  m_req : Msg
  m_data_rcvd : Nat
deriving Repr, DecidableEq

/-- Result of one `Communicator::hasRequest` call: the updated member
state, the updated panic reason, the input bytes left on the port, the
returned boolean, and the (possibly updated) caller-supplied `req_out`. -/
structure PollResult where
  comm : Communicator
  reason : Nat
  port : List Nat
  got : Bool
  req_out : Msg
deriving Repr, DecidableEq

/-- `memcpy(&buf[off], bytes, bytes.length)` on a byte array modelled as
a list: overwrite `bytes.length` entries starting at `off`. -/
def storeAt (buf : List Nat) (off : Nat) (bytes : List Nat) : List Nat :=
  buf.take off ++ bytes ++ buf.drop (off + bytes.length)

/-- `Communicator::hasRequest` (Communicator.cpp lines 24-98).  The port
is the list of available input bytes; `readBytes(dst, n)` consumes
`min n port.length` bytes (its return value is that count).  In
`READ_REQUEST_HEADER` the two header bytes land in `m_req.cmd` and
`m_req.len` (a short read writes only the bytes it got, then records a
panic reason).  Panic reasons use source Communicator with the source
line numbers 39, 50, 66, 92. -/
def hasRequest (c : Communicator) (reason : Nat) (port : List Nat)
    (req_out : Msg) : PollResult :=
  match c.m_state with
  | .IDLE =>
    let c := { c with m_data_rcvd := 0 }
    if HEADER_SIZE ≤ port.length then
      ⟨{ c with m_state := .READ_REQUEST_HEADER }, reason, port, false, req_out⟩
    else
      ⟨c, reason, port, false, req_out⟩
  | .READ_REQUEST_HEADER =>
    let hdr := port.take HEADER_SIZE
    let port := port.drop HEADER_SIZE
    let req := { c.m_req with
      cmd := hdr.getD 0 c.m_req.cmd, len := hdr.getD 1 c.m_req.len }
    if hdr.length ≠ HEADER_SIZE then
      ⟨{ c with m_state := .PANIC, m_req := req },
        Panic.setReason reason Panic.Source.Communicator 39, port, false, req_out⟩
    else if req.len = 0 then
      ⟨{ c with m_state := .RETURN_REQUEST, m_req := req },
        reason, port, false, req_out⟩
    else if req.len ≤ MAX_DATA_SIZE then
      ⟨{ c with m_state := .READ_REQUEST_DATA, m_req := req, m_data_rcvd := 0 },
        reason, port, false, req_out⟩
    else
      ⟨{ c with m_state := .PANIC, m_req := req },
        Panic.setReason reason Panic.Source.Communicator 50, port, false, req_out⟩
  | .READ_REQUEST_DATA =>
    let avail := port.length
    if 0 < avail then
      let data_left := c.m_req.len - c.m_data_rcvd
      let to_read := if avail < data_left then avail else data_left
      let chunk := port.take to_read
      let port := port.drop to_read
      let req := { c.m_req with data := storeAt c.m_req.data c.m_data_rcvd chunk }
      if chunk.length ≠ to_read then
        ⟨{ c with m_state := .PANIC, m_req := req },
          Panic.setReason reason Panic.Source.Communicator 66, port, false, req_out⟩
      else
        let c : Communicator :=
          { c with m_req := req, m_data_rcvd := c.m_data_rcvd + to_read }
        if c.m_req.len ≤ c.m_data_rcvd then
          ⟨{ c with m_state := .RETURN_REQUEST }, reason, port, false, req_out⟩
        else
          ⟨c, reason, port, false, req_out⟩
    else
      ⟨c, reason, port, false, req_out⟩
  | .RETURN_REQUEST =>
    let out := { cmd := c.m_req.cmd, len := c.m_req.len,
                 data := c.m_req.data.take c.m_req.len ++
                           req_out.data.drop c.m_req.len : Msg }
    let out :=
      if c.m_req.len < MAX_DATA_SIZE then
        { out with data := out.data.take c.m_req.len ++
                             List.replicate (MAX_DATA_SIZE - c.m_req.len) 0 }
      else
        out
    ⟨{ c with m_state := .IDLE }, reason, port, true, out⟩
  | .PANIC =>
    ⟨c, reason, port, false, req_out⟩
  | .UNINITIALIZED =>
    ⟨{ c with m_state := .PANIC },
      Panic.setReason reason Panic.Source.Communicator 92, port, false, req_out⟩

/-- `Communicator::sendResponse` (Communicator.h lines 48-57): clamps
`len` to `MAX_DATA_SIZE`, then writes `HEADER_SIZE + len` bytes of the
struct to the port.  Returns the (possibly clamped) response struct and
the wire bytes written. -/
def sendResponse (response : Msg) : Msg × List Nat :=
  let response :=
    if MAX_DATA_SIZE < response.len then
      { response with len := MAX_DATA_SIZE }
    else
      response
  (response, response.cmd :: response.len :: response.data.take response.len)

/-- Drive `hasRequest` across successive calls: before call `i` the
chunk number `i` of newly-arrived input is appended to the unconsumed
buffer, then `hasRequest` is called once with the fixed caller-supplied
`out0` message.  Stops with the delivered frame on the first call that
returns true; `none` if the chunk list runs out first. -/
def feed (out0 : Msg) (c : Communicator) (reason : Nat) (buf : List Nat) :
    List (List Nat) → Option Msg
  | [] => none
  | chunk :: rest =>
    let r := hasRequest c reason (buf ++ chunk) out0
    if r.got then some r.req_out else feed out0 r.comm r.reason r.port rest

/-- Repeated `hasRequest` calls: before call `i` the chunk number `i`
of newly-arrived input is appended to the unconsumed buffer `buf`;
collects the returned booleans of all calls. -/
def pollFlags (c : Communicator) (reason : Nat) (out0 : Msg)
    (buf : List Nat) : List (List Nat) → List Bool
  | [] => []
  | chunk :: rest =>
    let r := hasRequest c reason (buf ++ chunk) out0
    r.got :: pollFlags r.comm r.reason out0 r.port rest

/-- The frame a receiver assembles from the wire stream
`cIn :: n :: p` (with `p.length = n ≤ 64`): the payload zero-padded to
the 64-byte buffer capacity. -/
def expectedMsg (cIn n : Nat) (p : List Nat) : Msg :=
  ⟨cIn, n, p ++ List.replicate (MAX_DATA_SIZE - n) 0⟩

/-- Invariant tying a mid-parse `Communicator` to the wire stream
`cIn :: n :: p` it is receiving: `buf` is the delivered-but-unconsumed
input, `fut` the input still to arrive. -/
def Inv (cIn n : Nat) (p : List Nat) (c : Communicator)
    (buf fut : List Nat) : Prop :=
  c.m_req.data.length = MAX_DATA_SIZE ∧
  ((c.m_state = .IDLE ∧ buf ++ fut = cIn :: n :: p) ∨
   (c.m_state = .READ_REQUEST_HEADER ∧ HEADER_SIZE ≤ buf.length ∧
      buf ++ fut = cIn :: n :: p) ∨
   (c.m_state = .READ_REQUEST_DATA ∧ c.m_req.cmd = cIn ∧ c.m_req.len = n ∧
      c.m_data_rcvd < n ∧
      c.m_req.data.take c.m_data_rcvd = p.take c.m_data_rcvd ∧
      buf ++ fut = p.drop c.m_data_rcvd) ∨
   (c.m_state = .RETURN_REQUEST ∧ c.m_req.cmd = cIn ∧ c.m_req.len = n ∧
      c.m_req.data.take n = p))

/-- Progress measure for the receive path: once all bytes of a frame
are buffered, each `hasRequest` call strictly lowers this rank until
the frame is returned. -/
def stateRank : CommState → Nat
  | .RETURN_REQUEST => 0
  | .READ_REQUEST_DATA => 1
  | .READ_REQUEST_HEADER => 2
  | .IDLE => 3
  | _ => 4

-- `enum Error` (Depthcharge.h).
namespace Error

def SUCCESS : Nat := 0x00

def UNIMPLEMENTED : Nat := 0xfb

def UNINITIALIZED : Nat := 0xfc

def INVALID_PARAM : Nat := 0xfd

def NOT_SUPPORTED : Nat := 0xfe

def INVALID_CMD : Nat := 0xff

end Error

/-- The member state of `Companion` (Depthcharge.h): capability mask,
host-link communicator and I2C peripheral state (the LED is a pure
output driver with no state the dispatcher reads). -/
structure Companion where
  m_caps : Nat
  m_comm : Communicator
  m_i2c : I2CPeriphState
deriving Repr, DecidableEq

-- `Companion::Command` identifiers (Depthcharge.h).
namespace Companion

def FW_GET_VERSION : Nat := 0x00

def FW_GET_CAPABILITIES : Nat := 0x01

def I2C_GET_ADDR : Nat := 0x08

def I2C_SET_ADDR : Nat := 0x09

def I2C_GET_SPEED : Nat := 0x0a

def I2C_SET_SPEED : Nat := 0x0b

def I2C_GET_SUBADDR_LEN : Nat := 0x0c

def I2C_SET_SUBADDR_LEN : Nat := 0x0d

def I2C_GET_MODE_FLAGS : Nat := 0x0e

def I2C_SET_MODE_FLAGS : Nat := 0x0f

def I2C_SET_READ_BUFFER : Nat := 0x10

def I2C_GET_WRITE_BUFFER : Nat := 0x11

def CAP_I2C_PERIPH : Nat := 1

end Companion

/-- The `VERSION_MAJOR/MINOR/PATCH/EXTRA` constants of Version.h (a
build-time generated header, not among the checked-in sources); the
dispatcher takes them as explicit data. -/
structure FwVersion where
  major : Nat
  minor : Nat
  patch : Nat
  extra : Nat
deriving Repr, DecidableEq

/-- `Companion::handleHostMessage` (Companion.cpp lines 56-190): the
command switch mutates `msg` in place into the response (and, for the
setter commands, the I2C peripheral state), then calls
`m_comm.sendResponse(msg)`.  Multi-byte values (`m_caps`, the I2C
speed) cross `msg.data` little-endian, as the byte-wise copies in the
source spell out.  Returns the updated companion state, the panic
reason (the dispatcher never writes it), the final response struct and
the wire bytes sent. -/
def handleHostMessage (ver : FwVersion) (comp : Companion) (reason : Nat)
    (msg : Msg) : Companion × Nat × Msg × List Nat :=
  let d0 := msg.data.getD 0 0
  let step : Companion × Msg :=
    if msg.cmd = Companion.FW_GET_VERSION then
      (comp, { msg with
        len := 4,
        data := storeAt msg.data 0 [ver.major, ver.minor, ver.patch, ver.extra] })
    else if msg.cmd = Companion.FW_GET_CAPABILITIES then
      (comp, { msg with
        len := 4,
        data := storeAt msg.data 0
          [comp.m_caps &&& 0xff, (comp.m_caps >>> 8) &&& 0xff,
           (comp.m_caps >>> 16) &&& 0xff, (comp.m_caps >>> 24) &&& 0xff] })
    else if msg.cmd = Companion.I2C_GET_ADDR then
      (comp, { msg with
        len := 1,
        data := storeAt msg.data 0
          [if I2CPeriph.attached comp.m_i2c then
             I2CPeriph.getAddress comp.m_i2c
           else Error.NOT_SUPPORTED] })
    else if msg.cmd = Companion.I2C_SET_ADDR then
      if msg.len ≠ 1 ∨ 0x7f < d0 then
        (comp, { msg with
          len := 1,
          data := storeAt msg.data 0 [Error.INVALID_PARAM] })
      else if I2CPeriph.attached comp.m_i2c then
        ({ comp with m_i2c := I2CPeriph.setAddress comp.m_i2c d0 },
          { msg with
            len := 1, data := storeAt msg.data 0 [Error.SUCCESS] })
      else
        (comp, { msg with
          len := 1,
          data := storeAt msg.data 0 [Error.NOT_SUPPORTED] })
    else if msg.cmd = Companion.I2C_GET_SPEED then
      if I2CPeriph.attached comp.m_i2c then
        let speed := I2CPeriph.getSpeed comp.m_i2c
        (comp, { msg with
          len := 4,
          data := storeAt msg.data 0
            [speed &&& 0xff, (speed >>> 8) &&& 0xff,
             (speed >>> 16) &&& 0xff, (speed >>> 24) &&& 0xff] })
      else
        (comp, { msg with
          len := 1,
          data := storeAt msg.data 0 [Error.NOT_SUPPORTED] })
    else if msg.cmd = Companion.I2C_SET_SPEED then
      if msg.len ≠ 4 ∨ d0 = 0 then
        (comp, { msg with
          len := 1,
          data := storeAt msg.data 0 [Error.INVALID_PARAM] })
      else if I2CPeriph.attached comp.m_i2c then
        let speed := d0 ||| (msg.data.getD 1 0 <<< 8) |||
          (msg.data.getD 2 0 <<< 16) ||| (msg.data.getD 3 0 <<< 24)
        ({ comp with m_i2c := I2CPeriph.setSpeed comp.m_i2c speed },
          { msg with len := 1, data := storeAt msg.data 0 [Error.SUCCESS] })
      else
        (comp, { msg with
          len := 1,
          data := storeAt msg.data 0 [Error.NOT_SUPPORTED] })
    else if msg.cmd = Companion.I2C_GET_SUBADDR_LEN then
      (comp, { msg with
        len := 1,
        data := storeAt msg.data 0
          [if I2CPeriph.attached comp.m_i2c then
             I2CPeriph.getSubAddressLength comp.m_i2c
           else Error.NOT_SUPPORTED] })
    else if msg.cmd = Companion.I2C_SET_SUBADDR_LEN then
      if I2CPeriph.attached comp.m_i2c then
        ({ comp with m_i2c := I2CPeriph.setSubAddressLength comp.m_i2c d0 },
          { msg with len := 1, data := storeAt msg.data 0 [Error.SUCCESS] })
      else
        (comp, { msg with
          len := 1,
          data := storeAt msg.data 0 [Error.NOT_SUPPORTED] })
    else if msg.cmd = Companion.I2C_GET_MODE_FLAGS then
      (comp, { msg with
        len := 1,
        data := storeAt msg.data 0 [Error.UNIMPLEMENTED] })
    else if msg.cmd = Companion.I2C_SET_MODE_FLAGS then
      (comp, { msg with
        len := 1,
        data := storeAt msg.data 0 [Error.UNIMPLEMENTED] })
    else if msg.cmd = Companion.I2C_SET_READ_BUFFER then
      if msg.len < 1 then
        (comp, { msg with
          len := 1,
          data := storeAt msg.data 0 [Error.INVALID_PARAM] })
      else if I2CPeriph.attached comp.m_i2c then
        ({ comp with m_i2c := I2CPeriph.setReadBuffer comp.m_i2c msg.data msg.len },
          { msg with len := 1, data := storeAt msg.data 0 [Error.SUCCESS] })
      else
        (comp, { msg with
          len := 1,
          data := storeAt msg.data 0 [Error.NOT_SUPPORTED] })
    else if msg.cmd = Companion.I2C_GET_WRITE_BUFFER then
      if I2CPeriph.attached comp.m_i2c then
        let r := I2CPeriph.getWriteBuffer comp.m_i2c msg.data MAX_DATA_SIZE
        (comp, { msg with len := r.1, data := r.2 })
      else
        (comp, { msg with
          len := 1,
          data := storeAt msg.data 0 [Error.NOT_SUPPORTED] })
    else
      (comp, { msg with
        len := 1,
        data := storeAt msg.data 0 [Error.INVALID_CMD] })
  let r := sendResponse step.2
  (step.1, reason, r.1, r.2)

/-- The value of the `I2CPeriph` static members before any call: the
initializers at the foot of I2CPeriph.cpp. -/
def I2CPeriph.initState : I2CPeriphState :=
  ⟨none, 0, 0, List.replicate BUFFER_SIZE 0, 0,
    List.replicate BUFFER_SIZE 0, 0, 1⟩

/-- A `Communicator` right after `attach` (Communicator.cpp lines
15-22): state `IDLE`, `m_req` zeroed (with `m_data_rcvd` taken as 0; the
source leaves it uninitialized until the first `IDLE` poll clears it). -/
def Communicator.attachedInit : Communicator :=
  ⟨.IDLE, ⟨0, 0, List.replicate MAX_DATA_SIZE 0⟩, 0⟩

/-- A concrete `Companion` whose I2C peripheral bus is not attached. -/
def compUnattached : Companion :=
  ⟨0, Communicator.attachedInit, I2CPeriph.initState⟩

/-- A concrete `Companion` after `attachI2C(bus, 0x78, 100000)`
(Companion.cpp lines 30-34): the peripheral attached with the default
address and speed and `CAP_I2C_PERIPH` set. -/
def compAttached : Companion :=
  ⟨Companion.CAP_I2C_PERIPH, Communicator.attachedInit,
    (I2CPeriph.attach I2CPeriph.initState 0 1 0x78 100000).1⟩

/-! ## Helper lemmas -/

theorem setReason_zero (s l : Nat) :
    Panic.setReason 0 s l = ((s &&& 0xff) <<< 16) ||| l := by
  simp [Panic.setReason]

theorem setReason_active (reason s l : Nat)
    (h : ((s &&& 0xff) <<< 16) ||| l ≠ 0) :
    Panic.active (Panic.setReason reason s l) = true := by
  unfold Panic.active Panic.setReason
  by_cases hr : reason = 0
  · simp [hr, h]
  · simp [hr]

theorem hasRequest_panic_state (c : Communicator) (reason : Nat)
    (port : List Nat) (out : Msg) (h : c.m_state = .PANIC) :
    hasRequest c reason port out = ⟨c, reason, port, false, out⟩ := by
  obtain ⟨st, mreq, rcvd⟩ := c
  subst h
  rfl

theorem pollFlags_panic_state (c : Communicator) (reason : Nat) (out : Msg)
    (buf : List Nat) (chunks : List (List Nat)) (h : c.m_state = .PANIC) :
    ∀ b ∈ pollFlags c reason out buf chunks, b = false := by
  induction chunks generalizing buf with
  | nil => intro b hb; simp [pollFlags] at hb
  | cons chunk rest ih =>
    intro b hb
    rw [pollFlags, hasRequest_panic_state c reason (buf ++ chunk) out h] at hb
    simp only [List.mem_cons] at hb
    rcases hb with hb | hb
    · exact hb
    · exact ih (buf ++ chunk) b hb

/-! ## Claims about the fault latch and the I2C peripheral -/

/-- C8: starting from the cleared (zero) latch, a first
`Panic::setReason(s1, l1)` call whose encoding is nonzero fixes the
recorded value to `((s1 &&& 0xff) <<< 16) ||| l1`; a second call with any
arguments, and every later call, leave that value unchanged. -/
theorem panic_setReason_first_wins (s1 l1 s2 l2 : Nat) (_hl1 : l1 < 65536)
    (hnz : ((s1 &&& 0xff) <<< 16) ||| l1 ≠ 0) :
    Panic.setReason (Panic.setReason 0 s1 l1) s2 l2 =
      ((s1 &&& 0xff) <<< 16) ||| l1 ∧
    ∀ s l,
      Panic.setReason (Panic.setReason (Panic.setReason 0 s1 l1) s2 l2) s l =
        ((s1 &&& 0xff) <<< 16) ||| l1 := by
  have h2 : Panic.setReason (Panic.setReason 0 s1 l1) s2 l2 =
      ((s1 &&& 0xff) <<< 16) ||| l1 := by
    rw [setReason_zero]
    unfold Panic.setReason
    rw [if_neg hnz]
  refine ⟨h2, fun s l => ?_⟩
  rw [h2]
  unfold Panic.setReason
  rw [if_neg hnz]

theorem panic_setReason_first_wins_witness :
    (50 : Nat) < 65536 ∧
    ((1 &&& 0xff) <<< 16) ||| 50 ≠ 0 ∧
    (Panic.setReason (Panic.setReason 0 1 50) 2 146 =
        ((1 &&& 0xff) <<< 16) ||| 50 ∧
      ∀ s l,
        Panic.setReason (Panic.setReason (Panic.setReason 0 1 50) 2 146) s l =
          ((1 &&& 0xff) <<< 16) ||| 50) :=
  ⟨by decide, by decide,
    panic_setReason_first_wins 1 50 2 146 (by decide) (by decide)⟩

/-- C7: a second `I2CPeriph::attach` on an already-attached peripheral
leaves the entire state record (bus handle, address, speed, both
buffers, both counts, subaddress skip) unchanged and leaves the fault
latch active. -/
theorem i2c_attach_twice_faults (s : I2CPeriphState)
    (reason bus addr speed : Nat) (hatt : I2CPeriph.attached s = true) :
    (I2CPeriph.attach s reason bus addr speed).1 = s ∧
    Panic.active (I2CPeriph.attach s reason bus addr speed).2 = true := by
  have h : s.m_i2c.isSome = true := hatt
  have hr : I2CPeriph.attach s reason bus addr speed =
      (s, Panic.setReason reason Panic.Source.I2CPeriph 22) := by
    unfold I2CPeriph.attach
    rw [if_pos h]
  rw [hr]
  exact ⟨rfl, setReason_active reason Panic.Source.I2CPeriph 22 (by decide)⟩

theorem i2c_attach_twice_faults_witness :
    I2CPeriph.attached compAttached.m_i2c = true ∧
    ((I2CPeriph.attach compAttached.m_i2c 0 9 0x50 400000).1 =
        compAttached.m_i2c ∧
      Panic.active (I2CPeriph.attach compAttached.m_i2c 0 9 0x50 400000).2 =
        true) :=
  ⟨by decide,
    i2c_attach_twice_faults compAttached.m_i2c 0 9 0x50 400000 (by decide)⟩

/-- C6: an `_handle_write` callback reporting more bytes than the
32-byte write buffer stores exactly `BUFFER_SIZE` bytes (the first 32
bytes the bus delivers after the subaddress skip), sets
`m_wcount = BUFFER_SIZE` and leaves the fault latch active; a negative
count leaves the state untouched and leaves the fault latch active. -/
theorem i2c_handle_write_overflow (s : I2CPeriphState) (reason : Nat)
    (count : Int) (stream : Nat → Nat)
    (hw : s.m_wbuf.length = BUFFER_SIZE) :
    ((BUFFER_SIZE : Int) < count →
      (I2CPeriph.handle_write s reason count stream).1.m_wcount =
        BUFFER_SIZE ∧
      (I2CPeriph.handle_write s reason count stream).1.m_wbuf =
        (List.range BUFFER_SIZE).map (fun i => stream (s.m_subaddr_len + i)) ∧
      Panic.active (I2CPeriph.handle_write s reason count stream).2 = true) ∧
    (count < 0 →
      (I2CPeriph.handle_write s reason count stream).1 = s ∧
      Panic.active (I2CPeriph.handle_write s reason count stream).2 = true) := by
  constructor
  · intro hcount
    have hneg : ¬ count < 0 := by
      have : (0 : Int) ≤ (BUFFER_SIZE : Int) := by positivity
      omega
    have htn : BUFFER_SIZE < count.toNat := by
      have h32 : ((BUFFER_SIZE : Nat) : Int) = (BUFFER_SIZE : Int) := rfl
      omega
    unfold I2CPeriph.handle_write
    rw [if_neg hneg, if_pos htn]
    refine ⟨rfl, ?_, ?_⟩
    · simp only
      rw [show s.m_wbuf.drop BUFFER_SIZE = [] from by
            rw [← hw]; exact List.drop_length s.m_wbuf,
          List.append_nil]
    · exact setReason_active reason Panic.Source.I2CPeriph 146 (by decide)
  · intro hcount
    unfold I2CPeriph.handle_write
    rw [if_pos hcount]
    exact ⟨rfl, setReason_active reason Panic.Source.I2CPeriph 132 (by decide)⟩

theorem i2c_handle_write_overflow_witness :
    (I2CPeriph.initState.m_wbuf.length = BUFFER_SIZE) ∧
    (BUFFER_SIZE : Int) < 40 ∧ (-3 : Int) < 0 ∧
    ((I2CPeriph.handle_write I2CPeriph.initState 0 40 (fun i => i)).1.m_wcount =
        BUFFER_SIZE ∧
      (I2CPeriph.handle_write I2CPeriph.initState 0 40 (fun i => i)).1.m_wbuf =
        (List.range BUFFER_SIZE).map
          (fun i => (fun i => i) (I2CPeriph.initState.m_subaddr_len + i)) ∧
      Panic.active
        (I2CPeriph.handle_write I2CPeriph.initState 0 40 (fun i => i)).2 =
          true) ∧
    ((I2CPeriph.handle_write I2CPeriph.initState 0 (-3) (fun i => i)).1 =
        I2CPeriph.initState ∧
      Panic.active
        (I2CPeriph.handle_write I2CPeriph.initState 0 (-3) (fun i => i)).2 =
          true) :=
  ⟨by decide, by decide, by decide,
    (i2c_handle_write_overflow I2CPeriph.initState 0 40 (fun i => i)
      (by decide)).1 (by decide),
    (i2c_handle_write_overflow I2CPeriph.initState 0 (-3) (fun i => i)
      (by decide)).2 (by decide)⟩

/-! ## Claims about the framing state machine -/

/-- C10: whenever `Communicator::hasRequest` returns false — in any
state, with any input availability — the caller-supplied request
argument is returned completely unmodified. -/
theorem hasRequest_false_leaves_req (c : Communicator) (reason : Nat)
    (port : List Nat) (req_out : Msg)
    (h : (hasRequest c reason port req_out).got = false) :
    (hasRequest c reason port req_out).req_out = req_out := by
  obtain ⟨st, mreq, rcvd⟩ := c
  cases st <;> simp only [hasRequest] at h ⊢ <;> (repeat' split) <;> simp_all

theorem hasRequest_false_leaves_req_witness :
    (hasRequest Communicator.attachedInit 0 [5] ⟨9, 9, [9]⟩).got = false ∧
    (hasRequest Communicator.attachedInit 0 [5] ⟨9, 9, [9]⟩).req_out =
      ⟨9, 9, [9]⟩ :=
  ⟨by decide,
    hasRequest_false_leaves_req Communicator.attachedInit 0 [5] ⟨9, 9, [9]⟩
      (by decide)⟩

/-- C3: a header declaring a length above `MAX_DATA_SIZE`, polled from
`IDLE` (the first call sees the header and transitions, the second parses
it), returns no frame on the parsing call, drives the state machine to
the terminal `PANIC` state, leaves the fault latch active, and every
subsequent `hasRequest` call — with any further input — also returns no
frame. -/
theorem comm_oversize_len_faults (c : Communicator) (reason cmdB lenB : Nat)
    (rest : List Nat) (out0 : Msg) (chunks : List (List Nat))
    (hidle : c.m_state = .IDLE) (hlen : MAX_DATA_SIZE < lenB) :
    let r1 := hasRequest c reason (cmdB :: lenB :: rest) out0
    let r2 := hasRequest r1.comm r1.reason r1.port out0
    r1.got = false ∧ r2.got = false ∧ r2.comm.m_state = .PANIC ∧
    Panic.active r2.reason = true ∧
    ∀ b ∈ pollFlags r2.comm r2.reason out0 r2.port chunks, b = false := by
  obtain ⟨st, mreq, rcvd⟩ := c
  simp only [Communicator.m_state] at hidle
  subst hidle
  have h2 : HEADER_SIZE ≤ (cmdB :: lenB :: rest).length := by
    simp [HEADER_SIZE]
  have hr1 : hasRequest ⟨.IDLE, mreq, rcvd⟩ reason (cmdB :: lenB :: rest) out0 =
      ⟨⟨.READ_REQUEST_HEADER, mreq, 0⟩, reason, cmdB :: lenB :: rest, false,
        out0⟩ := by
    unfold hasRequest
    rw [if_pos h2]
  have hne : ¬ lenB = 0 := by
    intro h0
    rw [h0] at hlen
    exact absurd hlen (by decide)
  have hgt : ¬ lenB ≤ MAX_DATA_SIZE := Nat.not_le_of_lt hlen
  have hr2 : hasRequest ⟨.READ_REQUEST_HEADER, mreq, 0⟩ reason
      (cmdB :: lenB :: rest) out0 =
      ⟨⟨.PANIC, ⟨cmdB, lenB, mreq.data⟩, 0⟩,
        Panic.setReason reason Panic.Source.Communicator 50, rest, false,
        out0⟩ := by
    unfold hasRequest
    simp only [HEADER_SIZE, List.take_succ_cons, List.take_zero,
      List.drop_succ_cons, List.drop_zero, List.getD_cons_zero,
      List.getD_cons_succ, List.length_cons, List.length_nil]
    rw [if_neg (by decide), if_neg hne, if_neg hgt]
  simp only [hr1, hr2]
  refine ⟨trivial, trivial, trivial, ?_, ?_⟩
  · exact setReason_active reason Panic.Source.Communicator 50 (by decide)
  · exact pollFlags_panic_state
      ⟨.PANIC, ⟨cmdB, lenB, mreq.data⟩, 0⟩
      (Panic.setReason reason Panic.Source.Communicator 50) out0 rest chunks
      rfl

theorem comm_oversize_len_faults_witness :
    Communicator.attachedInit.m_state = .IDLE ∧ MAX_DATA_SIZE < 65 ∧
    (let r1 := hasRequest Communicator.attachedInit 0 [7, 65, 3] ⟨0, 0, []⟩
     let r2 := hasRequest r1.comm r1.reason r1.port ⟨0, 0, []⟩
     r1.got = false ∧ r2.got = false ∧ r2.comm.m_state = .PANIC ∧
     Panic.active r2.reason = true ∧
     ∀ b ∈ pollFlags r2.comm r2.reason ⟨0, 0, []⟩ r2.port [[1, 2], []],
       b = false) :=
  ⟨by decide, by decide,
    comm_oversize_len_faults Communicator.attachedInit 0 7 65 [3] ⟨0, 0, []⟩
      [[1, 2], []] (by decide) (by decide)⟩

theorem or_ne_zero_left (a b : Nat) (h : a ≠ 0) : a ||| b ≠ 0 := by
  intro h0
  apply h
  apply Nat.eq_of_testBit_eq
  intro i
  have hb := congrArg (fun n => n.testBit i) h0
  simp only [Nat.testBit_or, Nat.zero_testBit] at hb
  simp [(Bool.or_eq_false_iff.mp hb).1]

/-! ## Claims about the dispatcher -/

/-- C9: `Companion::handleHostMessage` never latches the fault record
and never moves the `Communicator` out of its current state; in
particular this holds for every request whose response carries one of
the recoverable error codes in payload byte 0. -/
theorem dispatcher_recoverable_no_state_change (ver : FwVersion)
    (comp : Companion) (reason : Nat) (msg : Msg)
    (_herr : (handleHostMessage ver comp reason msg).2.2.1.data.getD 0 0 ∈
      ([Error.UNIMPLEMENTED, Error.UNINITIALIZED, Error.INVALID_PARAM,
        Error.NOT_SUPPORTED, Error.INVALID_CMD] : List Nat)) :
    (handleHostMessage ver comp reason msg).1.m_comm = comp.m_comm ∧
    (handleHostMessage ver comp reason msg).2.1 = reason := by
  refine ⟨?_, rfl⟩
  unfold handleHostMessage
  dsimp only
  by_cases h1 : msg.cmd = Companion.FW_GET_VERSION
  · rw [if_pos h1]
  · rw [if_neg h1]
    by_cases h2 : msg.cmd = Companion.FW_GET_CAPABILITIES
    · rw [if_pos h2]
    · rw [if_neg h2]
      by_cases h3 : msg.cmd = Companion.I2C_GET_ADDR
      · rw [if_pos h3]
      · rw [if_neg h3]
        by_cases h4 : msg.cmd = Companion.I2C_SET_ADDR
        · rw [if_pos h4]
          by_cases hv4 : msg.len ≠ 1 ∨ 127 < msg.data.getD 0 0
          · rw [if_pos hv4]
          · rw [if_neg hv4]
            by_cases ha4 : I2CPeriph.attached comp.m_i2c = true
            · rw [if_pos ha4]
            · rw [if_neg ha4]
        · rw [if_neg h4]
          by_cases h5 : msg.cmd = Companion.I2C_GET_SPEED
          · rw [if_pos h5]
            by_cases ha5 : I2CPeriph.attached comp.m_i2c = true
            · rw [if_pos ha5]
            · rw [if_neg ha5]
          · rw [if_neg h5]
            by_cases h6 : msg.cmd = Companion.I2C_SET_SPEED
            · rw [if_pos h6]
              by_cases hv6 : msg.len ≠ 4 ∨ msg.data.getD 0 0 = 0
              · rw [if_pos hv6]
              · rw [if_neg hv6]
                by_cases ha6 : I2CPeriph.attached comp.m_i2c = true
                · rw [if_pos ha6]
                · rw [if_neg ha6]
            · rw [if_neg h6]
              by_cases h7 : msg.cmd = Companion.I2C_GET_SUBADDR_LEN
              · rw [if_pos h7]
              · rw [if_neg h7]
                by_cases h8 : msg.cmd = Companion.I2C_SET_SUBADDR_LEN
                · rw [if_pos h8]
                  by_cases ha8 : I2CPeriph.attached comp.m_i2c = true
                  · rw [if_pos ha8]
                  · rw [if_neg ha8]
                · rw [if_neg h8]
                  by_cases h9 : msg.cmd = Companion.I2C_GET_MODE_FLAGS
                  · rw [if_pos h9]
                  · rw [if_neg h9]
                    by_cases h10 : msg.cmd = Companion.I2C_SET_MODE_FLAGS
                    · rw [if_pos h10]
                    · rw [if_neg h10]
                      by_cases h11 : msg.cmd = Companion.I2C_SET_READ_BUFFER
                      · rw [if_pos h11]
                        by_cases hv11 : msg.len < 1
                        · rw [if_pos hv11]
                        · rw [if_neg hv11]
                          by_cases ha11 : I2CPeriph.attached comp.m_i2c = true
                          · rw [if_pos ha11]
                          · rw [if_neg ha11]
                      · rw [if_neg h11]
                        by_cases h12 : msg.cmd = Companion.I2C_GET_WRITE_BUFFER
                        · rw [if_pos h12]
                          by_cases ha12 : I2CPeriph.attached comp.m_i2c = true
                          · rw [if_pos ha12]
                          · rw [if_neg ha12]
                        · rw [if_neg h12]

theorem dispatcher_recoverable_no_state_change_witness :
    (handleHostMessage ⟨1, 2, 3, 4⟩ compUnattached 0
        ⟨0x42, 0, List.replicate 64 0⟩).2.2.1.data.getD 0 0 ∈
      ([Error.UNIMPLEMENTED, Error.UNINITIALIZED, Error.INVALID_PARAM,
        Error.NOT_SUPPORTED, Error.INVALID_CMD] : List Nat) ∧
    ((handleHostMessage ⟨1, 2, 3, 4⟩ compUnattached 0
        ⟨0x42, 0, List.replicate 64 0⟩).1.m_comm = compUnattached.m_comm ∧
      (handleHostMessage ⟨1, 2, 3, 4⟩ compUnattached 0
        ⟨0x42, 0, List.replicate 64 0⟩).2.1 = 0) :=
  ⟨by decide,
    dispatcher_recoverable_no_state_change ⟨1, 2, 3, 4⟩ compUnattached 0
      ⟨0x42, 0, List.replicate 64 0⟩ (by decide)⟩

/-- C4 counterexample: the request `I2C_SET_SPEED, length 4,
data = [0x00, 0x01, 0x00, 0x00]` carries the little-endian speed value
256, which is nonzero, and the bus is attached — so the claim predicts
`SUCCESS` and the speed applied — yet the code answers `INVALID_PARAM`
(it tests only `data[0] == 0`) and leaves the speed unchanged. -/
theorem i2c_set_speed_claim_false :
    ((0 : Nat) ||| (1 <<< 8) ||| (0 <<< 16) ||| (0 <<< 24)) ≠ 0 ∧
    (handleHostMessage ⟨1, 2, 3, 4⟩ compAttached 0
        ⟨Companion.I2C_SET_SPEED, 4,
          [0, 1, 0, 0] ++ List.replicate 60 0⟩).2.2.1.data.getD 0 0 =
      Error.INVALID_PARAM ∧
    Error.INVALID_PARAM ≠ Error.SUCCESS ∧
    (handleHostMessage ⟨1, 2, 3, 4⟩ compAttached 0
        ⟨Companion.I2C_SET_SPEED, 4,
          [0, 1, 0, 0] ++ List.replicate 60 0⟩).1.m_i2c.m_speed =
      compAttached.m_i2c.m_speed := by
  refine ⟨by decide, by decide, by decide, by decide⟩

/-- C4 (amended): `I2C_SET_SPEED` validates that the request length
equals 4 and that the least-significant byte `data[0]` of the 4-byte
little-endian speed is nonzero; every request failing this validation
gets `INVALID_PARAM`, every request passing it with the bus attached
has the full little-endian speed value applied and gets `SUCCESS`, and
with the bus not attached gets `NOT_SUPPORTED`. -/
theorem i2c_set_speed_amended (ver : FwVersion) (comp : Companion)
    (reason : Nat) (msg : Msg)
    (hcmd : msg.cmd = Companion.I2C_SET_SPEED) :
    (msg.len ≠ 4 ∨ msg.data.getD 0 0 = 0 →
      (handleHostMessage ver comp reason msg).2.2.1.data.getD 0 0 =
        Error.INVALID_PARAM) ∧
    (msg.len = 4 → msg.data.getD 0 0 ≠ 0 →
      (I2CPeriph.attached comp.m_i2c = true →
        (handleHostMessage ver comp reason msg).2.2.1.data.getD 0 0 =
          Error.SUCCESS ∧
        (handleHostMessage ver comp reason msg).1.m_i2c.m_speed =
          msg.data.getD 0 0 ||| (msg.data.getD 1 0 <<< 8) |||
            (msg.data.getD 2 0 <<< 16) ||| (msg.data.getD 3 0 <<< 24)) ∧
      (I2CPeriph.attached comp.m_i2c = false →
        (handleHostMessage ver comp reason msg).2.2.1.data.getD 0 0 =
          Error.NOT_SUPPORTED)) := by
  have hn1 : ¬ (Companion.I2C_SET_SPEED = Companion.FW_GET_VERSION) := by
    decide
  have hn2 : ¬ (Companion.I2C_SET_SPEED = Companion.FW_GET_CAPABILITIES) := by
    decide
  have hn3 : ¬ (Companion.I2C_SET_SPEED = Companion.I2C_GET_ADDR) := by decide
  have hn4 : ¬ (Companion.I2C_SET_SPEED = Companion.I2C_SET_ADDR) := by decide
  have hn5 : ¬ (Companion.I2C_SET_SPEED = Companion.I2C_GET_SPEED) := by decide
  constructor
  · intro hbad
    unfold handleHostMessage
    dsimp only
    rw [hcmd, if_neg hn1, if_neg hn2, if_neg hn3, if_neg hn4, if_neg hn5,
      if_pos rfl, if_pos hbad]
    simp [sendResponse, storeAt, MAX_DATA_SIZE]
  · intro hlen hd0
    have hval : ¬ (msg.len ≠ 4 ∨ msg.data.getD 0 0 = 0) := by
      push_neg
      exact ⟨hlen, hd0⟩
    constructor
    · intro hatt
      unfold handleHostMessage
      dsimp only
      rw [hcmd, if_neg hn1, if_neg hn2, if_neg hn3, if_neg hn4, if_neg hn5,
        if_pos rfl, if_neg hval, if_pos hatt]
      refine ⟨by simp [sendResponse, storeAt, MAX_DATA_SIZE], ?_⟩
      dsimp only
      simp only [I2CPeriph.setSpeed]
      rw [if_pos]
      exact or_ne_zero_left _ _
        (or_ne_zero_left _ _ (or_ne_zero_left _ _ hd0))
    · intro hatt
      have hatt' : ¬ I2CPeriph.attached comp.m_i2c = true := by
        simp [hatt]
      unfold handleHostMessage
      dsimp only
      rw [hcmd, if_neg hn1, if_neg hn2, if_neg hn3, if_neg hn4, if_neg hn5,
        if_pos rfl, if_neg hval, if_neg hatt']
      simp [sendResponse, storeAt, MAX_DATA_SIZE]

theorem i2c_set_speed_amended_witness :
    (⟨Companion.I2C_SET_SPEED, 4, [5, 1, 0, 0] ++ List.replicate 60 0⟩ :
      Msg).cmd = Companion.I2C_SET_SPEED ∧
    (handleHostMessage ⟨1, 2, 3, 4⟩ compAttached 0
        ⟨Companion.I2C_SET_SPEED, 4,
          [5, 1, 0, 0] ++ List.replicate 60 0⟩).2.2.1.data.getD 0 0 =
      Error.SUCCESS ∧
    (handleHostMessage ⟨1, 2, 3, 4⟩ compAttached 0
        ⟨Companion.I2C_SET_SPEED, 4,
          [5, 1, 0, 0] ++ List.replicate 60 0⟩).1.m_i2c.m_speed = 261 := by
  have h := (i2c_set_speed_amended ⟨1, 2, 3, 4⟩ compAttached 0
    ⟨Companion.I2C_SET_SPEED, 4, [5, 1, 0, 0] ++ List.replicate 60 0⟩
    (by decide)).2 (by decide) (by decide)
  have h2 := h.1 (by decide)
  refine ⟨by decide, h2.1, ?_⟩
  rw [h2.2]
  decide

/-- C5 counterexample: with the bus not attached, the request
`I2C_SET_ADDR, length 1, data[0] = 0x80` is an `I2C_*` command other
than the MODE_FLAGS pair, yet its response byte 0 is `INVALID_PARAM`
(parameter validation runs before the attachment check), not the
`NOT_SUPPORTED` the claim requires. -/
theorem i2c_gating_claim_false :
    I2CPeriph.attached compUnattached.m_i2c = false ∧
    (handleHostMessage ⟨1, 2, 3, 4⟩ compUnattached 0
        ⟨Companion.I2C_SET_ADDR, 1,
          0x80 :: List.replicate 63 0⟩).2.2.1.data.getD 0 0 =
      Error.INVALID_PARAM ∧
    Error.INVALID_PARAM ≠ Error.NOT_SUPPORTED := by
  refine ⟨by decide, by decide, by decide⟩

/-- C5 (amended): with the peripheral bus not attached, every
`I2C_*` command except the MODE_FLAGS pair answers `NOT_SUPPORTED` in
payload byte 0 *provided the request passes the command's parameter
validation* (`I2C_SET_ADDR`: length 1 and `data[0] ≤ 0x7f`;
`I2C_SET_SPEED`: length 4 and `data[0] ≠ 0`; `I2C_SET_READ_BUFFER`:
length ≥ 1; no validation for the others); and — attached or not — an
`I2C_SET_ADDR` whose `data[0]` is 0x80 or whose length differs from 1
answers `INVALID_PARAM` with response length 1. -/
theorem i2c_gating_amended (ver : FwVersion) (comp : Companion)
    (reason : Nat) (msg : Msg) :
    (I2CPeriph.attached comp.m_i2c = false →
      ((msg.cmd = Companion.I2C_GET_ADDR ∨
        msg.cmd = Companion.I2C_GET_SPEED ∨
        msg.cmd = Companion.I2C_GET_SUBADDR_LEN ∨
        msg.cmd = Companion.I2C_SET_SUBADDR_LEN ∨
        msg.cmd = Companion.I2C_GET_WRITE_BUFFER) →
        (handleHostMessage ver comp reason msg).2.2.1.data.getD 0 0 =
          Error.NOT_SUPPORTED) ∧
      (msg.cmd = Companion.I2C_SET_ADDR → msg.len = 1 →
        msg.data.getD 0 0 ≤ 0x7f →
        (handleHostMessage ver comp reason msg).2.2.1.data.getD 0 0 =
          Error.NOT_SUPPORTED) ∧
      (msg.cmd = Companion.I2C_SET_SPEED → msg.len = 4 →
        msg.data.getD 0 0 ≠ 0 →
        (handleHostMessage ver comp reason msg).2.2.1.data.getD 0 0 =
          Error.NOT_SUPPORTED) ∧
      (msg.cmd = Companion.I2C_SET_READ_BUFFER → 1 ≤ msg.len →
        (handleHostMessage ver comp reason msg).2.2.1.data.getD 0 0 =
          Error.NOT_SUPPORTED)) ∧
    (msg.cmd = Companion.I2C_SET_ADDR →
      msg.data.getD 0 0 = 0x80 ∨ msg.len ≠ 1 →
      (handleHostMessage ver comp reason msg).2.2.1.data.getD 0 0 =
        Error.INVALID_PARAM ∧
      (handleHostMessage ver comp reason msg).2.2.1.len = 1) := by
  constructor
  · intro hatt
    have hattne : ¬ (I2CPeriph.attached comp.m_i2c = true) := by
      simp [hatt]
    refine ⟨?_, ?_, ?_, ?_⟩
    · rintro (hc | hc | hc | hc | hc)
      · unfold handleHostMessage
        dsimp only
        have hx0 : ¬ (Companion.I2C_GET_ADDR = Companion.FW_GET_VERSION) := by decide
        have hx1 : ¬ (Companion.I2C_GET_ADDR = Companion.FW_GET_CAPABILITIES) := by decide
        rw [hc, if_neg hx0, if_neg hx1, if_pos rfl]
        simp [sendResponse, storeAt, MAX_DATA_SIZE, hatt]
      · unfold handleHostMessage
        dsimp only
        have hx0 : ¬ (Companion.I2C_GET_SPEED = Companion.FW_GET_VERSION) := by decide
        have hx1 : ¬ (Companion.I2C_GET_SPEED = Companion.FW_GET_CAPABILITIES) := by decide
        have hx2 : ¬ (Companion.I2C_GET_SPEED = Companion.I2C_GET_ADDR) := by decide
        have hx3 : ¬ (Companion.I2C_GET_SPEED = Companion.I2C_SET_ADDR) := by decide
        rw [hc, if_neg hx0, if_neg hx1, if_neg hx2, if_neg hx3, if_pos rfl]
        rw [if_neg hattne]
        simp [sendResponse, storeAt, MAX_DATA_SIZE]
      · unfold handleHostMessage
        dsimp only
        have hx0 : ¬ (Companion.I2C_GET_SUBADDR_LEN = Companion.FW_GET_VERSION) := by decide
        have hx1 : ¬ (Companion.I2C_GET_SUBADDR_LEN = Companion.FW_GET_CAPABILITIES) := by decide
        have hx2 : ¬ (Companion.I2C_GET_SUBADDR_LEN = Companion.I2C_GET_ADDR) := by decide
        have hx3 : ¬ (Companion.I2C_GET_SUBADDR_LEN = Companion.I2C_SET_ADDR) := by decide
        have hx4 : ¬ (Companion.I2C_GET_SUBADDR_LEN = Companion.I2C_GET_SPEED) := by decide
        have hx5 : ¬ (Companion.I2C_GET_SUBADDR_LEN = Companion.I2C_SET_SPEED) := by decide
        rw [hc, if_neg hx0, if_neg hx1, if_neg hx2, if_neg hx3, if_neg hx4, if_neg hx5, if_pos rfl]
        simp [sendResponse, storeAt, MAX_DATA_SIZE, hatt]
      · unfold handleHostMessage
        dsimp only
        have hx0 : ¬ (Companion.I2C_SET_SUBADDR_LEN = Companion.FW_GET_VERSION) := by decide
        have hx1 : ¬ (Companion.I2C_SET_SUBADDR_LEN = Companion.FW_GET_CAPABILITIES) := by decide
        have hx2 : ¬ (Companion.I2C_SET_SUBADDR_LEN = Companion.I2C_GET_ADDR) := by decide
        have hx3 : ¬ (Companion.I2C_SET_SUBADDR_LEN = Companion.I2C_SET_ADDR) := by decide
        have hx4 : ¬ (Companion.I2C_SET_SUBADDR_LEN = Companion.I2C_GET_SPEED) := by decide
        have hx5 : ¬ (Companion.I2C_SET_SUBADDR_LEN = Companion.I2C_SET_SPEED) := by decide
        have hx6 : ¬ (Companion.I2C_SET_SUBADDR_LEN = Companion.I2C_GET_SUBADDR_LEN) := by decide
        rw [hc, if_neg hx0, if_neg hx1, if_neg hx2, if_neg hx3, if_neg hx4, if_neg hx5, if_neg hx6, if_pos rfl]
        rw [if_neg hattne]
        simp [sendResponse, storeAt, MAX_DATA_SIZE]
      · unfold handleHostMessage
        dsimp only
        have hx0 : ¬ (Companion.I2C_GET_WRITE_BUFFER = Companion.FW_GET_VERSION) := by decide
        have hx1 : ¬ (Companion.I2C_GET_WRITE_BUFFER = Companion.FW_GET_CAPABILITIES) := by decide
        have hx2 : ¬ (Companion.I2C_GET_WRITE_BUFFER = Companion.I2C_GET_ADDR) := by decide
        have hx3 : ¬ (Companion.I2C_GET_WRITE_BUFFER = Companion.I2C_SET_ADDR) := by decide
        have hx4 : ¬ (Companion.I2C_GET_WRITE_BUFFER = Companion.I2C_GET_SPEED) := by decide
        have hx5 : ¬ (Companion.I2C_GET_WRITE_BUFFER = Companion.I2C_SET_SPEED) := by decide
        have hx6 : ¬ (Companion.I2C_GET_WRITE_BUFFER = Companion.I2C_GET_SUBADDR_LEN) := by decide
        have hx7 : ¬ (Companion.I2C_GET_WRITE_BUFFER = Companion.I2C_SET_SUBADDR_LEN) := by decide
        have hx8 : ¬ (Companion.I2C_GET_WRITE_BUFFER = Companion.I2C_GET_MODE_FLAGS) := by decide
        have hx9 : ¬ (Companion.I2C_GET_WRITE_BUFFER = Companion.I2C_SET_MODE_FLAGS) := by decide
        have hx10 : ¬ (Companion.I2C_GET_WRITE_BUFFER = Companion.I2C_SET_READ_BUFFER) := by decide
        rw [hc, if_neg hx0, if_neg hx1, if_neg hx2, if_neg hx3, if_neg hx4, if_neg hx5, if_neg hx6, if_neg hx7, if_neg hx8, if_neg hx9, if_neg hx10, if_pos rfl]
        rw [if_neg hattne]
        simp [sendResponse, storeAt, MAX_DATA_SIZE]
    · intro hc hlen hle
      have hcond : ¬ (msg.len ≠ 1 ∨ 127 < msg.data.getD 0 0) := by
        push_neg
        exact ⟨hlen, hle⟩
      unfold handleHostMessage
      dsimp only
      have hx0 : ¬ (Companion.I2C_SET_ADDR = Companion.FW_GET_VERSION) := by decide
      have hx1 : ¬ (Companion.I2C_SET_ADDR = Companion.FW_GET_CAPABILITIES) := by decide
      have hx2 : ¬ (Companion.I2C_SET_ADDR = Companion.I2C_GET_ADDR) := by decide
      rw [hc, if_neg hx0, if_neg hx1, if_neg hx2, if_pos rfl]
      rw [if_neg hcond, if_neg hattne]
      simp [sendResponse, storeAt, MAX_DATA_SIZE]
    · intro hc hlen hd0
      have hcond : ¬ (msg.len ≠ 4 ∨ msg.data.getD 0 0 = 0) := by
        push_neg
        exact ⟨hlen, hd0⟩
      unfold handleHostMessage
      dsimp only
      have hx0 : ¬ (Companion.I2C_SET_SPEED = Companion.FW_GET_VERSION) := by decide
      have hx1 : ¬ (Companion.I2C_SET_SPEED = Companion.FW_GET_CAPABILITIES) := by decide
      have hx2 : ¬ (Companion.I2C_SET_SPEED = Companion.I2C_GET_ADDR) := by decide
      have hx3 : ¬ (Companion.I2C_SET_SPEED = Companion.I2C_SET_ADDR) := by decide
      have hx4 : ¬ (Companion.I2C_SET_SPEED = Companion.I2C_GET_SPEED) := by decide
      rw [hc, if_neg hx0, if_neg hx1, if_neg hx2, if_neg hx3, if_neg hx4, if_pos rfl]
      rw [if_neg hcond, if_neg hattne]
      simp [sendResponse, storeAt, MAX_DATA_SIZE]
    · intro hc hlen
      have hcond : ¬ (msg.len < 1) := by omega
      unfold handleHostMessage
      dsimp only
      have hx0 : ¬ (Companion.I2C_SET_READ_BUFFER = Companion.FW_GET_VERSION) := by decide
      have hx1 : ¬ (Companion.I2C_SET_READ_BUFFER = Companion.FW_GET_CAPABILITIES) := by decide
      have hx2 : ¬ (Companion.I2C_SET_READ_BUFFER = Companion.I2C_GET_ADDR) := by decide
      have hx3 : ¬ (Companion.I2C_SET_READ_BUFFER = Companion.I2C_SET_ADDR) := by decide
      have hx4 : ¬ (Companion.I2C_SET_READ_BUFFER = Companion.I2C_GET_SPEED) := by decide
      have hx5 : ¬ (Companion.I2C_SET_READ_BUFFER = Companion.I2C_SET_SPEED) := by decide
      have hx6 : ¬ (Companion.I2C_SET_READ_BUFFER = Companion.I2C_GET_SUBADDR_LEN) := by decide
      have hx7 : ¬ (Companion.I2C_SET_READ_BUFFER = Companion.I2C_SET_SUBADDR_LEN) := by decide
      have hx8 : ¬ (Companion.I2C_SET_READ_BUFFER = Companion.I2C_GET_MODE_FLAGS) := by decide
      have hx9 : ¬ (Companion.I2C_SET_READ_BUFFER = Companion.I2C_SET_MODE_FLAGS) := by decide
      rw [hc, if_neg hx0, if_neg hx1, if_neg hx2, if_neg hx3, if_neg hx4, if_neg hx5, if_neg hx6, if_neg hx7, if_neg hx8, if_neg hx9, if_pos rfl]
      rw [if_neg hcond, if_neg hattne]
      simp [sendResponse, storeAt, MAX_DATA_SIZE]
  · intro hc hbad
    have hcond : msg.len ≠ 1 ∨ 127 < msg.data.getD 0 0 := by
      rcases hbad with hd | hl
      · right
        rw [hd]
        decide
      · left
        exact hl
    unfold handleHostMessage
    dsimp only
    have hx0 : ¬ (Companion.I2C_SET_ADDR = Companion.FW_GET_VERSION) := by decide
    have hx1 : ¬ (Companion.I2C_SET_ADDR = Companion.FW_GET_CAPABILITIES) := by decide
    have hx2 : ¬ (Companion.I2C_SET_ADDR = Companion.I2C_GET_ADDR) := by decide
    rw [hc, if_neg hx0, if_neg hx1, if_neg hx2, if_pos rfl]
    rw [if_pos hcond]
    constructor
    · simp [sendResponse, storeAt, MAX_DATA_SIZE]
    · simp [sendResponse, storeAt, MAX_DATA_SIZE]

theorem i2c_gating_amended_witness :
    I2CPeriph.attached compUnattached.m_i2c = false ∧
    (⟨Companion.I2C_GET_ADDR, 0, List.replicate 64 0⟩ : Msg).cmd =
      Companion.I2C_GET_ADDR ∧
    (handleHostMessage ⟨1, 2, 3, 4⟩ compUnattached 0
        ⟨Companion.I2C_GET_ADDR, 0,
          List.replicate 64 0⟩).2.2.1.data.getD 0 0 =
      Error.NOT_SUPPORTED ∧
    ((handleHostMessage ⟨1, 2, 3, 4⟩ compAttached 0
        ⟨Companion.I2C_SET_ADDR, 3,
          List.replicate 64 0⟩).2.2.1.data.getD 0 0 =
      Error.INVALID_PARAM ∧
    (handleHostMessage ⟨1, 2, 3, 4⟩ compAttached 0
        ⟨Companion.I2C_SET_ADDR, 3, List.replicate 64 0⟩).2.2.1.len = 1) := by
  refine ⟨by decide, by decide, ?_, ?_⟩
  · exact ((i2c_gating_amended ⟨1, 2, 3, 4⟩ compUnattached 0
      ⟨Companion.I2C_GET_ADDR, 0, List.replicate 64 0⟩).1 (by decide)).1
      (Or.inl rfl)
  · exact (i2c_gating_amended ⟨1, 2, 3, 4⟩ compAttached 0
      ⟨Companion.I2C_SET_ADDR, 3, List.replicate 64 0⟩).2 rfl
      (Or.inr (by decide))

/-! ## Round trip and fragmentation invariance: step lemmas -/

theorem append_eq_cons_cons {x fut p : List Nat} {a b : Nat}
    (h : x ++ fut = a :: b :: p) (hx : 2 ≤ x.length) :
    ∃ t, x = a :: b :: t ∧ t ++ fut = p := by
  cases x with
  | nil => simp at hx
  | cons a' x' =>
    cases x' with
    | nil => simp at hx
    | cons b' t =>
      simp only [List.cons_append, List.cons.injEq] at h
      obtain ⟨ha, hb, ht⟩ := h
      exact ⟨t, by rw [ha, hb], ht⟩

theorem hasRequest_idle (c : Communicator) (reason : Nat) (port : List Nat)
    (out : Msg) (h : c.m_state = .IDLE) :
    hasRequest c reason port out =
      if HEADER_SIZE ≤ port.length then
        ⟨⟨.READ_REQUEST_HEADER, c.m_req, 0⟩, reason, port, false, out⟩
      else
        ⟨⟨.IDLE, c.m_req, 0⟩, reason, port, false, out⟩ := by
  obtain ⟨st, mreq, rcvd⟩ := c
  simp only [Communicator.m_state] at h
  subst h
  rfl

theorem hasRequest_header (c : Communicator) (reason : Nat) (a b : Nat)
    (t : List Nat) (out : Msg) (h : c.m_state = .READ_REQUEST_HEADER) :
    hasRequest c reason (a :: b :: t) out =
      if b = 0 then
        ⟨⟨.RETURN_REQUEST, ⟨a, b, c.m_req.data⟩, c.m_data_rcvd⟩, reason, t,
          false, out⟩
      else if b ≤ MAX_DATA_SIZE then
        ⟨⟨.READ_REQUEST_DATA, ⟨a, b, c.m_req.data⟩, 0⟩, reason, t, false, out⟩
      else
        ⟨⟨.PANIC, ⟨a, b, c.m_req.data⟩, c.m_data_rcvd⟩,
          Panic.setReason reason Panic.Source.Communicator 50, t, false,
          out⟩ := by
  obtain ⟨st, mreq, rcvd⟩ := c
  simp only [Communicator.m_state] at h
  subst h
  unfold hasRequest
  simp only [HEADER_SIZE, List.take_succ_cons, List.take_zero,
    List.drop_succ_cons, List.drop_zero, List.getD_cons_zero,
    List.getD_cons_succ, List.length_cons, List.length_nil]
  rw [if_neg (by decide)]

theorem hasRequest_rrd_wait (c : Communicator) (reason : Nat)
    (port : List Nat) (out : Msg) (h : c.m_state = .READ_REQUEST_DATA)
    (hpl : ¬ 0 < port.length) :
    hasRequest c reason port out = ⟨c, reason, port, false, out⟩ := by
  obtain ⟨st, mreq, rcvd⟩ := c
  simp only [Communicator.m_state] at h
  subst h
  unfold hasRequest
  dsimp only
  rw [if_neg hpl]

theorem hasRequest_rrd_run (c : Communicator) (reason : Nat)
    (port : List Nat) (out : Msg) (t : Nat)
    (h : c.m_state = .READ_REQUEST_DATA) (hpl : 0 < port.length)
    (ht : t = if port.length < c.m_req.len - c.m_data_rcvd then port.length
      else c.m_req.len - c.m_data_rcvd) :
    hasRequest c reason port out =
      if c.m_req.len ≤ c.m_data_rcvd + t then
        ⟨⟨.RETURN_REQUEST,
            ⟨c.m_req.cmd, c.m_req.len,
              storeAt c.m_req.data c.m_data_rcvd (port.take t)⟩,
            c.m_data_rcvd + t⟩, reason, port.drop t, false, out⟩
      else
        ⟨⟨.READ_REQUEST_DATA,
            ⟨c.m_req.cmd, c.m_req.len,
              storeAt c.m_req.data c.m_data_rcvd (port.take t)⟩,
            c.m_data_rcvd + t⟩, reason, port.drop t, false, out⟩ := by
  obtain ⟨st, mreq, rcvd⟩ := c
  simp only [Communicator.m_state] at h
  subst h
  simp only [Communicator.m_req, Communicator.m_data_rcvd] at ht
  unfold hasRequest
  dsimp only
  rw [if_pos hpl]
  have hlt : (port.take t).length = t := by
    rw [List.length_take, ht]
    by_cases hc : port.length < mreq.len - rcvd
    · rw [if_pos hc]
      omega
    · rw [if_neg hc]
      omega
  rw [← ht, hlt]
  rw [if_neg (fun hne => hne rfl)]

theorem hasRequest_return_out (c : Communicator) (reason : Nat)
    (port : List Nat) (out : Msg) (h : c.m_state = .RETURN_REQUEST)
    (hle : c.m_req.len ≤ MAX_DATA_SIZE)
    (hdata : c.m_req.data.length = MAX_DATA_SIZE)
    (hout : out.data.length = MAX_DATA_SIZE) :
    hasRequest c reason port out =
      ⟨⟨.IDLE, c.m_req, c.m_data_rcvd⟩, reason, port, true,
        ⟨c.m_req.cmd, c.m_req.len,
          c.m_req.data.take c.m_req.len ++
            List.replicate (MAX_DATA_SIZE - c.m_req.len) 0⟩⟩ := by
  obtain ⟨st, mreq, rcvd⟩ := c
  simp only [Communicator.m_state] at h
  simp only [Communicator.m_req, Communicator.m_data_rcvd] at *
  subst h
  unfold hasRequest
  dsimp only
  have htk : (mreq.data.take mreq.len).length = mreq.len := by
    rw [List.length_take]
    omega
  by_cases hl : mreq.len < MAX_DATA_SIZE
  · rw [if_pos hl]
    simp only [PollResult.mk.injEq, Msg.mk.injEq, and_true, true_and,
      eq_self_iff_true]
    rw [List.take_append_of_le_length (by omega), List.take_take,
      Nat.min_self]
  · rw [if_neg hl]
    have hl64 : mreq.len = MAX_DATA_SIZE := by omega
    simp only [PollResult.mk.injEq, Msg.mk.injEq, and_true, true_and,
      eq_self_iff_true]
    rw [hl64, ← hout, List.drop_length, hout]
    simp

theorem storeAt_length (buf bytes : List Nat) (off : Nat)
    (h : off + bytes.length ≤ buf.length) :
    (storeAt buf off bytes).length = buf.length := by
  simp only [storeAt, List.length_append, List.length_take, List.length_drop]
  omega

theorem storeAt_take (buf bytes : List Nat) (off : Nat)
    (h : off ≤ buf.length) :
    (storeAt buf off bytes).take (off + bytes.length) =
      buf.take off ++ bytes := by
  unfold storeAt
  have hAB : (buf.take off ++ bytes).length = off + bytes.length := by
    simp only [List.length_append, List.length_take]
    omega
  rw [List.take_append_of_le_length (Nat.le_of_eq hAB.symm), ← hAB,
    List.take_length]

theorem Inv_step (cIn n : Nat) (p : List Nat) (c : Communicator)
    (buf chunk fut : List Nat) (reason : Nat) (out0 : Msg)
    (hn : n ≤ MAX_DATA_SIZE) (hp : p.length = n)
    (hout : out0.data.length = MAX_DATA_SIZE)
    (hinv : Inv cIn n p c buf (chunk ++ fut)) :
    ((hasRequest c reason (buf ++ chunk) out0).got = true ∧
      (hasRequest c reason (buf ++ chunk) out0).req_out =
        expectedMsg cIn n p) ∨
    ((hasRequest c reason (buf ++ chunk) out0).got = false ∧
      (hasRequest c reason (buf ++ chunk) out0).reason = reason ∧
      Inv cIn n p (hasRequest c reason (buf ++ chunk) out0).comm
        (hasRequest c reason (buf ++ chunk) out0).port fut ∧
      (chunk = [] → fut = [] →
        stateRank (hasRequest c reason (buf ++ chunk) out0).comm.m_state <
          stateRank c.m_state)) := by
  obtain ⟨hdlen, hcase⟩ := hinv
  rcases hcase with ⟨hst, hbf⟩ | ⟨hst, hblen, hbf⟩ |
    ⟨hst, hcmd, hlen, hrc, hpre, hbf⟩ | ⟨hst, hcmd, hlen, htk⟩
  · -- IDLE
    have hbf' : (buf ++ chunk) ++ fut = cIn :: n :: p := by
      rw [List.append_assoc]
      exact hbf
    rw [hasRequest_idle c reason (buf ++ chunk) out0 hst]
    by_cases hpl : HEADER_SIZE ≤ (buf ++ chunk).length
    · rw [if_pos hpl]
      right
      refine ⟨rfl, rfl, ⟨hdlen, Or.inr (Or.inl ⟨rfl, hpl, hbf'⟩)⟩, ?_⟩
      intro _ _
      rw [hst]
      dsimp only
      decide
    · rw [if_neg hpl]
      right
      refine ⟨rfl, rfl, ⟨hdlen, Or.inl ⟨rfl, hbf'⟩⟩, ?_⟩
      intro hce hfe
      exfalso
      subst hce hfe
      simp only [List.append_nil] at hbf' hpl
      rw [hbf'] at hpl
      exact hpl (by simp [HEADER_SIZE])
  · -- READ_REQUEST_HEADER
    have hbf' : (buf ++ chunk) ++ fut = cIn :: n :: p := by
      rw [List.append_assoc]
      exact hbf
    have hH : HEADER_SIZE = 2 := rfl
    have hlen2 : 2 ≤ (buf ++ chunk).length := by
      rw [hH] at hblen
      rw [List.length_append]
      omega
    obtain ⟨t, hbc, htf⟩ := append_eq_cons_cons hbf' hlen2
    rw [hbc, hasRequest_header c reason cIn n t out0 hst]
    by_cases hn0 : n = 0
    · rw [if_pos hn0]
      right
      refine ⟨rfl, rfl,
        ⟨hdlen, Or.inr (Or.inr (Or.inr ⟨rfl, rfl, rfl, ?_⟩))⟩, ?_⟩
      · have hpnil : p = [] := List.eq_nil_of_length_eq_zero (by omega)
        rw [hn0, hpnil]
        simp
      · intro _ _
        rw [hst]
        dsimp only
        decide
    · rw [if_neg hn0, if_pos hn]
      right
      refine ⟨rfl, rfl,
        ⟨hdlen, Or.inr (Or.inr (Or.inl
          ⟨rfl, rfl, rfl, by dsimp only; omega, by simp,
            by simpa using htf⟩))⟩, ?_⟩
      intro _ _
      rw [hst]
      dsimp only
      decide
  · -- READ_REQUEST_DATA
    have hpf : (buf ++ chunk) ++ fut = p.drop c.m_data_rcvd := by
      rw [List.append_assoc]
      exact hbf
    by_cases hav : 0 < (buf ++ chunk).length
    · rcases Nat.lt_or_ge ((buf ++ chunk).length)
        (c.m_req.len - c.m_data_rcvd) with hlt | hge
      · -- partial read: everything available is consumed, frame not done
        have ht : ((buf ++ chunk).length) =
            if (buf ++ chunk).length < c.m_req.len - c.m_data_rcvd then
              (buf ++ chunk).length
            else c.m_req.len - c.m_data_rcvd := (if_pos hlt).symm
        rw [hasRequest_rrd_run c reason (buf ++ chunk) out0
          ((buf ++ chunk).length) hst hav ht,
          if_neg (show ¬ (c.m_req.len ≤
            c.m_data_rcvd + (buf ++ chunk).length) from by omega)]
        have hporttake : (buf ++ chunk).take ((buf ++ chunk).length) =
            buf ++ chunk := List.take_length _
        right
        refine ⟨rfl, rfl, ⟨?_, Or.inr (Or.inr (Or.inl
          ⟨rfl, hcmd, hlen, by dsimp only; omega, ?_, ?_⟩))⟩, ?_⟩
        · rw [hporttake]
          exact (storeAt_length c.m_req.data (buf ++ chunk) c.m_data_rcvd
            (by omega)).trans hdlen
        · rw [hporttake]
          have h1 := storeAt_take c.m_req.data (buf ++ chunk)
            c.m_data_rcvd (by omega)
          calc (storeAt c.m_req.data c.m_data_rcvd (buf ++ chunk)).take
                (c.m_data_rcvd + (buf ++ chunk).length)
              = c.m_req.data.take c.m_data_rcvd ++ (buf ++ chunk) := h1
            _ = p.take c.m_data_rcvd ++
                  (p.drop c.m_data_rcvd).take ((buf ++ chunk).length) := by
                rw [hpre, ← hpf,
                  List.take_append_of_le_length (Nat.le_refl _),
                  List.take_length]
            _ = p.take (c.m_data_rcvd + (buf ++ chunk).length) :=
                (List.take_add p _ _).symm
        · rw [List.drop_length]
          have : p.drop (c.m_data_rcvd + (buf ++ chunk).length) = fut := by
            rw [← List.drop_drop, ← hpf, List.drop_left]
          rw [this]
          simp
        · intro hce hfe
          exfalso
          subst hce hfe
          simp only [List.append_nil] at hpf hlt
          have hbl : buf.length = p.length - c.m_data_rcvd := by
            rw [hpf, List.length_drop]
          omega
      · -- final read: the remainder of the payload completes the frame
        have ht : (c.m_req.len - c.m_data_rcvd) =
            if (buf ++ chunk).length < c.m_req.len - c.m_data_rcvd then
              (buf ++ chunk).length
            else c.m_req.len - c.m_data_rcvd :=
          (if_neg (show ¬ ((buf ++ chunk).length <
            c.m_req.len - c.m_data_rcvd) from by omega)).symm
        rw [hasRequest_rrd_run c reason (buf ++ chunk) out0
          (c.m_req.len - c.m_data_rcvd) hst hav ht,
          if_pos (show c.m_req.len ≤
            c.m_data_rcvd + (c.m_req.len - c.m_data_rcvd) from by omega)]
        have hptl : ((buf ++ chunk).take (c.m_req.len - c.m_data_rcvd)).length
            = c.m_req.len - c.m_data_rcvd := by
          rw [List.length_take]
          omega
        right
        refine ⟨rfl, rfl, ⟨?_, Or.inr (Or.inr (Or.inr
          ⟨rfl, hcmd, hlen, ?_⟩))⟩, ?_⟩
        · exact (storeAt_length c.m_req.data
            ((buf ++ chunk).take (c.m_req.len - c.m_data_rcvd)) c.m_data_rcvd
            (by rw [hptl]; omega)).trans hdlen
        · have h1 := storeAt_take c.m_req.data
            ((buf ++ chunk).take (c.m_req.len - c.m_data_rcvd))
            c.m_data_rcvd (by omega)
          rw [hptl] at h1
          have h2 : c.m_data_rcvd + (c.m_req.len - c.m_data_rcvd) = n := by
            omega
          rw [h2] at h1
          calc (storeAt c.m_req.data c.m_data_rcvd
                ((buf ++ chunk).take (c.m_req.len - c.m_data_rcvd))).take n
              = c.m_req.data.take c.m_data_rcvd ++
                  (buf ++ chunk).take (c.m_req.len - c.m_data_rcvd) := h1
            _ = p.take c.m_data_rcvd ++
                  (p.drop c.m_data_rcvd).take (c.m_req.len - c.m_data_rcvd) := by
                rw [hpre, ← hpf, List.take_append_of_le_length hge]
            _ = p.take n := by rw [← List.take_add, h2]
            _ = p := by rw [← hp, List.take_length]
        · intro _ _
          rw [hst]
          dsimp only
          decide
    · -- nothing available: the call is a no-op
      rw [hasRequest_rrd_wait c reason (buf ++ chunk) out0 hst hav]
      right
      refine ⟨rfl, rfl, ⟨hdlen, Or.inr (Or.inr (Or.inl
        ⟨hst, hcmd, hlen, hrc, hpre, hpf⟩))⟩, ?_⟩
      intro hce hfe
      exfalso
      subst hce hfe
      simp only [List.append_nil] at hpf hav
      apply hav
      rw [hpf, List.length_drop]
      omega
  · -- RETURN_REQUEST
    rw [hasRequest_return_out c reason (buf ++ chunk) out0 hst (by omega)
      hdlen hout]
    left
    refine ⟨rfl, ?_⟩
    simp only [expectedMsg, Msg.mk.injEq]
    exact ⟨hcmd, hlen, by rw [hlen, htk]⟩

theorem Inv_rank (cIn n : Nat) (p : List Nat) (c : Communicator)
    (buf fut : List Nat) (hinv : Inv cIn n p c buf fut) :
    stateRank c.m_state < 4 := by
  obtain ⟨-, hcase⟩ := hinv
  rcases hcase with ⟨hst, -⟩ | ⟨hst, -, -⟩ | ⟨hst, -, -, -, -, -⟩ |
    ⟨hst, -, -, -⟩ <;> rw [hst] <;> decide

theorem feed_complete (cIn n : Nat) (p : List Nat) (out0 : Msg)
    (hn : n ≤ MAX_DATA_SIZE) (hp : p.length = n)
    (hout : out0.data.length = MAX_DATA_SIZE) :
    ∀ (k : Nat) (c : Communicator) (buf : List Nat) (reason : Nat)
      (L : List (List Nat)),
      Inv cIn n p c buf [] → stateRank c.m_state < k →
      feed out0 c reason buf (List.replicate k [] ++ L) =
        some (expectedMsg cIn n p) := by
  intro k
  induction k with
  | zero =>
    intro c buf reason L hinv hrank
    omega
  | succ k ih =>
    intro c buf reason L hinv hrank
    rw [List.replicate_succ, List.cons_append]
    simp only [feed]
    have hstep := Inv_step cIn n p c buf [] [] reason out0 hn hp hout hinv
    simp only [List.append_nil] at hstep ⊢
    rcases hstep with ⟨hg, ho⟩ | ⟨hg, hr, hinv', hrank'⟩
    · simp [hg, ho]
    · simp only [hg, Bool.false_eq_true, if_false]
      rw [hr]
      have hlt : stateRank
          (hasRequest c reason buf out0).comm.m_state < k := by
        have hd := hrank' trivial trivial
        omega
      exact ih _ _ _ L hinv' hlt

theorem feed_inv (cIn n : Nat) (p : List Nat) (out0 : Msg)
    (hn : n ≤ MAX_DATA_SIZE) (hp : p.length = n)
    (hout : out0.data.length = MAX_DATA_SIZE) :
    ∀ (chunks : List (List Nat)) (c : Communicator) (buf : List Nat)
      (reason : Nat),
      Inv cIn n p c buf chunks.flatten →
      feed out0 c reason buf (chunks ++ [[], [], [], []]) =
        some (expectedMsg cIn n p) := by
  intro chunks
  induction chunks with
  | nil =>
    intro c buf reason hinv
    have hrank : stateRank c.m_state < 4 :=
      Inv_rank cIn n p c buf [] (by simpa using hinv)
    have h := feed_complete cIn n p out0 hn hp hout 4 c buf reason []
      (by simpa using hinv) hrank
    simpa using h
  | cons chunk rest ih =>
    intro c buf reason hinv
    rw [List.cons_append]
    simp only [feed]
    have hstep := Inv_step cIn n p c buf chunk rest.flatten reason out0 hn hp
      hout (by simpa using hinv)
    rcases hstep with ⟨hg, ho⟩ | ⟨hg, hr, hinv', -⟩
    · simp [hg, ho]
    · simp only [hg, Bool.false_eq_true, if_false]
      rw [hr]
      exact ih _ _ _ hinv'

/-- C2: a well-formed frame stream (2-byte header plus its declared
payload, length at most 64), delivered to `hasRequest` across
successive calls in any partition into chunks, assembles to the very
same message as the whole stream delivered in one contiguous chunk
(both runs then polled to completion with empty arrivals). -/
theorem frame_fragmentation_invariant (cIn n : Nat) (p : List Nat)
    (parts : List (List Nat)) (out0 : Msg) (c : Communicator) (reason : Nat)
    (hn : n ≤ MAX_DATA_SIZE) (hp : p.length = n)
    (hout : out0.data.length = MAX_DATA_SIZE)
    (hc : c.m_state = .IDLE) (hcd : c.m_req.data.length = MAX_DATA_SIZE)
    (hparts : parts.flatten = cIn :: n :: p) :
    feed out0 c reason [] (parts ++ [[], [], [], []]) =
      feed out0 c reason [] ([cIn :: n :: p] ++ [[], [], [], []]) := by
  have h1 := feed_inv cIn n p out0 hn hp hout parts c [] reason
    ⟨hcd, Or.inl ⟨hc, by simpa using hparts⟩⟩
  have h2 := feed_inv cIn n p out0 hn hp hout [cIn :: n :: p] c [] reason
    ⟨hcd, Or.inl ⟨hc, by simp⟩⟩
  rw [h1, h2]

theorem frame_fragmentation_invariant_witness :
    ((3 : Nat) ≤ MAX_DATA_SIZE ∧ ([9, 8, 7] : List Nat).length = 3 ∧
      (⟨0, 0, List.replicate 64 0⟩ : Msg).data.length = MAX_DATA_SIZE ∧
      Communicator.attachedInit.m_state = .IDLE ∧
      Communicator.attachedInit.m_req.data.length = MAX_DATA_SIZE ∧
      ([[5], [3, 9], [], [8, 7]] : List (List Nat)).flatten =
        5 :: 3 :: [9, 8, 7]) ∧
    feed ⟨0, 0, List.replicate 64 0⟩ Communicator.attachedInit 0 []
        ([[5], [3, 9], [], [8, 7]] ++ [[], [], [], []]) =
      feed ⟨0, 0, List.replicate 64 0⟩ Communicator.attachedInit 0 []
        ([5 :: 3 :: [9, 8, 7]] ++ [[], [], [], []]) :=
  ⟨⟨by decide, by decide, by decide, by decide, by decide, by decide⟩,
    frame_fragmentation_invariant 5 3 [9, 8, 7] [[5], [3, 9], [], [8, 7]]
      ⟨0, 0, List.replicate 64 0⟩ Communicator.attachedInit 0 (by decide)
      (by decide) (by decide) (by decide) (by decide) (by decide)⟩

/-- C1: serializing a frame (command `m.cmd`, length `m.len ≤ 64`,
payload `m.data`) with `Communicator::sendResponse` and feeding the
produced bytes through `Communicator::hasRequest`, polled from `IDLE`
until it returns true, yields a message with the same command byte and
length, whose first `m.len` data bytes equal the first `m.len` payload
bytes and whose data bytes at indices `m.len..63` are all zero. -/
theorem frame_round_trip (m : Msg) (out0 : Msg) (c : Communicator)
    (reason : Nat) (hlen : m.len ≤ MAX_DATA_SIZE)
    (hmd : m.data.length = MAX_DATA_SIZE) (_hcb : m.cmd < 256)
    (_hpb : ∀ b ∈ m.data, b < 256)
    (hout : out0.data.length = MAX_DATA_SIZE)
    (hc : c.m_state = .IDLE) (hcd : c.m_req.data.length = MAX_DATA_SIZE) :
    ∃ res,
      feed out0 c reason [] [(sendResponse m).2, [], [], [], []] =
        some res ∧
      res.cmd = m.cmd ∧ res.len = m.len ∧
      res.data.take m.len = m.data.take m.len ∧
      res.data.drop m.len = List.replicate (MAX_DATA_SIZE - m.len) 0 := by
  have hwire : (sendResponse m).2 = m.cmd :: m.len :: m.data.take m.len := by
    unfold sendResponse
    rw [if_neg (Nat.not_lt.mpr hlen)]
  have hplen : (m.data.take m.len).length = m.len := by
    rw [List.length_take]
    omega
  have h := feed_inv m.cmd m.len (m.data.take m.len) out0 hlen hplen hout
    [m.cmd :: m.len :: m.data.take m.len] c [] reason
    ⟨hcd, Or.inl ⟨hc, by simp⟩⟩
  refine ⟨expectedMsg m.cmd m.len (m.data.take m.len), ?_, rfl, rfl, ?_, ?_⟩
  · rw [hwire]
    exact h
  · show ((m.data.take m.len) ++
      List.replicate (MAX_DATA_SIZE - m.len) 0).take m.len = m.data.take m.len
    rw [List.take_append_of_le_length (Nat.le_of_eq hplen.symm),
      List.take_take, Nat.min_self]
  · show ((m.data.take m.len) ++
      List.replicate (MAX_DATA_SIZE - m.len) 0).drop m.len =
        List.replicate (MAX_DATA_SIZE - m.len) 0
    exact List.drop_left' hplen

theorem frame_round_trip_witness :
    ((⟨0xaa, 2, [1, 2] ++ List.replicate 62 77⟩ : Msg).len ≤ MAX_DATA_SIZE ∧
      (⟨0xaa, 2, [1, 2] ++ List.replicate 62 77⟩ : Msg).data.length =
        MAX_DATA_SIZE ∧
      (0xaa : Nat) < 256 ∧
      (∀ b ∈ (⟨0xaa, 2, [1, 2] ++ List.replicate 62 77⟩ : Msg).data,
        b < 256) ∧
      (⟨0, 0, List.replicate 64 0⟩ : Msg).data.length = MAX_DATA_SIZE ∧
      Communicator.attachedInit.m_state = .IDLE ∧
      Communicator.attachedInit.m_req.data.length = MAX_DATA_SIZE) ∧
    ∃ res,
      feed ⟨0, 0, List.replicate 64 0⟩ Communicator.attachedInit 0 []
          [(sendResponse ⟨0xaa, 2, [1, 2] ++ List.replicate 62 77⟩).2,
            [], [], [], []] = some res ∧
      res.cmd = (⟨0xaa, 2, [1, 2] ++ List.replicate 62 77⟩ : Msg).cmd ∧
      res.len = (⟨0xaa, 2, [1, 2] ++ List.replicate 62 77⟩ : Msg).len ∧
      res.data.take 2 =
        (⟨0xaa, 2, [1, 2] ++ List.replicate 62 77⟩ : Msg).data.take 2 ∧
      res.data.drop 2 = List.replicate (MAX_DATA_SIZE - 2) 0 :=
  ⟨⟨by decide, by decide, by decide, by decide, by decide, by decide,
      by decide⟩,
    frame_round_trip ⟨0xaa, 2, [1, 2] ++ List.replicate 62 77⟩
      ⟨0, 0, List.replicate 64 0⟩ Communicator.attachedInit 0 (by decide)
      (by decide) (by decide) (by decide) (by decide) (by decide)
      (by decide)⟩

end Depthcharge
